import Mathlib

/-!
Verification development for the pincone-vector ingestion script (src/app.py).

The script is a single linear module: credential check, document load/split,
sample embedding to detect the dimension, index reconciliation against the
remote registry, optional index creation, a readiness polling loop, a direct
batch upsert with deterministic ids, and a second write pass through the
vector-store constructor.  Every definition below is a shallow embedding of a
concrete block of src/app.py; external services (embedding provider, index
registry) enter as explicit parameters of the model.
-/

namespace App

/-- Python truthiness of `os.getenv` results as used on lines 13-17:
`None` and the empty string are falsy, every other string is truthy. -/
def truthy : Option String → Bool
  | none => false
  | some s => !s.isEmpty

/-- Shapes a `describe_index` response can take, as probed on lines 59-68:
an object exposing a `dimension` attribute, a dict that may or may not hold
a `"dimension"` key, or anything else. -/
inductive DescribeInfo where
  | withDim (d : Nat)
  | dictLike (d : Option Nat)
  | other
  deriving DecidableEq, Repr

/-- The capability probe of lines 59-68: `hasattr(info, "dimension")` first,
then the dict-like `info.get("dimension")` fallback, else `None`. -/
def readDim : DescribeInfo → Option Nat
  | .withDim d => some d
  | .dictLike d => d
  | .other => none

/-- A Python string expression restricted to what line 76 needs:
literals, name lookups, concatenation, and the conditional expression
`e1 if b else e2`, which evaluates only the selected arm. -/
inductive NameExpr where
  | lit (s : String)
  | var (x : String)
  | app (e1 e2 : NameExpr)
  | cond (b : Bool) (e1 e2 : NameExpr)

/-- Evaluator for `NameExpr` over an environment of defined names.
Returns the value (`none` models a `NameError`) together with the list of
names actually looked up during evaluation.  The conditional evaluates its
condition and then only the chosen arm, as in Python. -/
def evalExpr (env : List (String × String)) : NameExpr → Option String × List String
  | .lit s => (some s, [])
  | .var x =>
    match env.lookup x with
    | some v => (some v, [x])
    | none => (none, [x])
  | .app e1 e2 =>
    match evalExpr env e1, evalExpr env e2 with
    | (some v1, l1), (some v2, l2) => (some (v1 ++ v2), l1 ++ l2)
    | (some _, l1), (none, l2) => (none, l1 ++ l2)
    | (none, l1), _ => (none, l1)
  | .cond b e1 e2 => if b then evalExpr env e1 else evalExpr env e2

/-- Line 76 verbatim:
`index_name = f"{requested_index_name}-v{EMB_ED_DIM}" if False else f"{requested_index_name}-v2"`.
The dead arm concatenates the requested name, `-v`, and the undefined name
`EMB_ED_DIM`; the live arm is the `-v2` literal. -/
def mismatchNameExpr (requested : String) : NameExpr :=
  .cond false
    (.app (.lit (requested ++ "-v")) (.var "EMB_ED_DIM"))
    (.lit (requested ++ "-v2"))

/-- Result of the reconciliation block: the selected index name and the
`create_new` flag (lines 41, 53, 77, 82, 85). -/
structure ReconcileResult where
  targetName : String
  mustCreate : Bool
  deriving DecidableEq, Repr

/-- Effects the script performs against its collaborators, in program order. -/
inductive Effect where
  | loadDocs
  | embedSample
  | listIndexes
  | describeIndex (name : String)
  | createIndex (name : String) (dim : Nat)
  | embedDocuments
  | upsertCall (ids : List String)
  | searchQuery
  deriving DecidableEq, Repr

/-- Lines 53-85: the dimension check and name fallback.  `desired` is already
known; `existing` is the (possibly recovered-to-empty) name list; `describe`
is the remote describe call, which may raise (`Except.error`).  The describe
call on line 56 is unguarded, so its error propagates.  The mismatch branch
assigns the name by evaluating the line-76 expression in an environment where
`EMBED_DIM` is defined but `EMB_ED_DIM` is not; a `NameError` there would
abort the run, modeled as `Except.error`. -/
def reconcile (desired : String) (embedDim : Nat) (existing : List String)
    (describe : String → Except Unit DescribeInfo) :
    Except Unit ReconcileResult :=
  if desired ∈ existing then
    match describe desired with
    | .error e => .error e
    | .ok info =>
      match readDim info with
      | some d =>
        if d ≠ embedDim then
          match (evalExpr [("EMBED_DIM", toString embedDim)] (mismatchNameExpr desired)).1 with
          | some nm => .ok ⟨nm, true⟩
          | none => .error ()
        else
          .ok ⟨desired, false⟩
      | none => .ok ⟨desired ++ "-v2", true⟩
  else
    .ok ⟨desired, true⟩

/-- The registry calls the reconciliation block performs: line 56 describes
the desired index exactly when its name was found in the listing. -/
def reconcileEffects (desired : String) (existing : List String) : List Effect :=
  if desired ∈ existing then [.describeIndex desired] else []

/-- Lines 44-48: a failing `list_indexes` call is caught and replaced by the
empty list (`existing = []`) before the dimension check runs. -/
def existingOf : Except Unit (List String) → List String
  | .ok l => l
  | .error _ => []

/-- Lines 44-48 composed with lines 53-85: recovery of the listing error,
then the dimension check. -/
def reconcilePhase (desired : String) (embedDim : Nat)
    (listRes : Except Unit (List String))
    (describe : String → Except Unit DescribeInfo) :
    Except Unit ReconcileResult :=
  reconcile desired embedDim (existingOf listRes) describe

/-- The status object read in the readiness loop (line 101); the `ready`
field may be absent, in which case the code defaults it to `False`. -/
structure StatusInfo where
  ready : Option Bool
  deriving DecidableEq, Repr

/-- Line 101: `info.status.get("ready", False)` (both shape branches end in
the same defaulted read). -/
def readyFlag (s : StatusInfo) : Bool :=
  s.ready.getD false

/-- The `while True` readiness loop of lines 99-105, indexed by fuel.
`poll k` is the readiness flag observed at the k-th describe call; the value
is the poll index at which the loop breaks, `none` if it has not broken
within `fuel` iterations.  The loop in the source has no other exit. -/
def waitReadyFuel (poll : Nat → Bool) (k : Nat) : Nat → Option Nat
  | 0 => none
  | fuel + 1 => if poll k then some k else waitReadyFuel poll (k + 1) fuel

/-- Line 113: `ids = [f"doc-{i}" for i in range(len(texts))]`. -/
def mkIds (n : Nat) : List String :=
  (List.range n).map (fun i => "doc-" ++ toString i)

/-- Python `zip` over three lists: truncates to the shortest. -/
def zip3 {α β γ : Type} : List α → List β → List γ → List (α × β × γ)
  | a :: as, b :: bs, c :: cs => (a, b, c) :: zip3 as bs cs
  | _, _, _ => []

/-- A document chunk as the upsert block sees it: page content and metadata. -/
structure Doc where
  content : String
  meta : String
  deriving DecidableEq, Repr

/-- An upsert record `{"id": _id, "values": vec, "metadata": meta}` (line 122). -/
structure UpsertRecord where
  id : String
  values : List Int
  metadata : String
  deriving DecidableEq, Repr

/-- Lines 112-127: build ids from the document count, zip ids, vectors and
documents (silently truncating on length mismatch, as `zip` does), and issue
exactly one unconditional `index.upsert` network call.  Returns the records
sent and the number of network calls made. -/
def upsertStep (docs : List Doc) (vectors : List (List Int)) :
    List UpsertRecord × Nat :=
  let texts := docs.map Doc.content
  let ids := mkIds texts.length
  let toUpsert := (zip3 ids vectors docs).map
    (fun t => { id := t.1, values := t.2.1, metadata := t.2.2.meta })
  (toUpsert, 1)

/-- The remote index state: an association list from record id to stored
vector.  Mutated only through `upsertOne`. -/
abbrev IndexState := List (String × List Int)

/-- Upsert semantics of the index service: overwrite the record sharing the
id if present, append otherwise. -/
def upsertOne (st : List (String × List Int)) (id : String) (v : List Int) :
    List (String × List Int) :=
  if st.any (fun p => p.1 = id) then
    st.map (fun p => if p.1 = id then (id, v) else p)
  else
    st ++ [(id, v)]

/-- Batch upsert: fold `upsertOne` over the records in order. -/
def upsertMany (st : List (String × List Int)) (recs : List (String × List Int)) :
    List (String × List Int) :=
  recs.foldl (fun s r => upsertOne s r.1 r.2) st

/-- Everything the script consumes from its environment and collaborators in
one run: the two credential variables (lines 13-14), the corpus as seen after
splitting (lines 23-27), the embedding service (sample dimension, line 35, and
per-chunk vectors, line 117), the registry responses (lines 45, 56, 100), and
the ids the vector-store constructor generates for its own write (line 132;
the library generates fresh uuid ids when none are supplied). -/
structure World where
  openaiKey : Option String
  pineconeKey : Option String
  numChunks : Nat
  chunkText : Nat → String
  chunkMeta : Nat → String
  embedDim : Nat
  embedVec : Nat → List Int
  listResult : Except Unit (List String)
  describeResult : String → Except Unit DescribeInfo
  pollStatus : Nat → StatusInfo
  freshId : Nat → String

/-- Why a run of the script terminated abnormally. -/
inductive RunError where
  | config
  | registry
  deriving DecidableEq, Repr

/-- Outcome of a run: normal completion with the final index state, an
uncaught exception, or still inside the readiness loop after the given fuel
(the source loop has no other exit). -/
inductive RunOutcome where
  | finished (st : IndexState)
  | aborted (e : RunError)
  | running
  deriving DecidableEq, Repr

/-- The describe calls issued by the first m iterations of the readiness
loop (line 100). -/
def pollEffects (name : String) (m : Nat) : List Effect :=
  (List.range m).map (fun _ => .describeIndex name)

/-- The whole script, top to bottom, as a function of its `World`, a fuel
bound for the readiness loop, and the initial remote index state.  Returns
the outcome and the ordered trace of external effects. Mirrors src/app.py:
credential check (13-17), load and split (23-27), sample embedding (34-35),
listing with recovery (44-48), reconciliation (53-85), conditional creation
(88-95), readiness loop (99-105), direct upsert with `doc-i` ids (112-127),
then `PineconeVectorStore.from_documents` re-embedding the same documents and
writing them under library-generated ids (132-137), and the sample search
(140). -/
def runPipeline (w : World) (fuel : Nat) (st0 : IndexState) :
    RunOutcome × List Effect :=
  if !truthy w.openaiKey || !truthy w.pineconeKey then
    (.aborted .config, [])
  else
    let docs := (List.range w.numChunks).map (fun i => Doc.mk (w.chunkText i) (w.chunkMeta i))
    let effHead : List Effect := [.loadDocs, .embedSample, .listIndexes]
    let existing := existingOf w.listResult
    let effRec := reconcileEffects "tester-index" existing
    match reconcile "tester-index" w.embedDim existing w.describeResult with
    | .error _ => (.aborted .registry, effHead ++ effRec)
    | .ok r =>
      let effCreate := if r.mustCreate then [Effect.createIndex r.targetName w.embedDim] else []
      match waitReadyFuel (fun k => readyFlag (w.pollStatus k)) 0 fuel with
      | none => (.running, effHead ++ effRec ++ effCreate ++ pollEffects r.targetName fuel)
      | some p =>
        let effPoll := pollEffects r.targetName (p + 1)
        let vectors := (List.range w.numChunks).map w.embedVec
        let recs := (upsertStep docs vectors).1
        let st1 := upsertMany st0 (recs.map (fun rec => (rec.id, rec.values)))
        let fids := (List.range w.numChunks).map w.freshId
        let st2 := upsertMany st1 (fids.zip vectors)
        (.finished st2,
          effHead ++ effRec ++ effCreate ++ effPoll
            ++ [.embedDocuments, .upsertCall (recs.map UpsertRecord.id)]
            ++ [.embedDocuments, .upsertCall fids]
            ++ [.searchQuery])

/-- Projects the final index state out of a run, if it completed. -/
def finalState : RunOutcome × List Effect → Option IndexState
  | (.finished st, _) => some st
  | _ => none

/-- The sequence of id lists sent by write (upsert) calls in a trace. -/
def writesOf (tr : List Effect) : List (List String) :=
  tr.filterMap (fun e => match e with | .upsertCall ids => some ids | _ => none)

/-- How many batch-embedding calls a trace contains. -/
def embedBatchCalls (tr : List Effect) : Nat :=
  tr.countP (fun e => e = .embedDocuments)

/-! ## Helper lemmas -/

/-- The line-76 expression always evaluates to the `-v2` name, looking up no
names at all, whatever the environment. -/
theorem evalExpr_mismatchName (env : List (String × String)) (requested : String) :
    evalExpr env (mismatchNameExpr requested) = (some (requested ++ "-v2"), []) :=
  rfl

/-- Appending the `-v2` suffix always changes the name. -/
theorem append_v2_ne (s : String) : s ++ "-v2" ≠ s := by
  intro h
  have hl := congrArg String.length h
  rw [String.length_append] at hl
  have h3 : ("-v2" : String).length = 3 := rfl
  rw [h3] at hl
  omega

/-- Mapping the first projection over `zip3` recovers the first list when it
is no longer than the other two. -/
theorem zip3_map_fst {α β γ : Type} (as : List α) :
    ∀ (bs : List β) (cs : List γ), as.length ≤ bs.length → as.length ≤ cs.length →
      (zip3 as bs cs).map (fun t => t.1) = as := by
  induction as with
  | nil => intro bs cs _ _; cases bs <;> cases cs <;> rfl
  | cons a as ih =>
    intro bs cs h1 h2
    cases bs with
    | nil => simp at h1
    | cons b bs =>
      cases cs with
      | nil => simp at h2
      | cons c cs =>
        simp only [zip3, List.map_cons, List.cons.injEq, true_and]
        exact ih bs cs (Nat.le_of_succ_le_succ h1) (Nat.le_of_succ_le_succ h2)

/-- There are exactly n entries in `mkIds n`. -/
theorem mkIds_length (n : Nat) : (mkIds n).length = n := by
  simp [mkIds]

/-- When there are at least as many vectors as documents, the record ids sent
by the direct upsert are exactly `doc-0 .. doc-(n-1)`. -/
theorem upsertStep_ids (docs : List Doc) (vectors : List (List Int))
    (h : docs.length ≤ vectors.length) :
    (upsertStep docs vectors).1.map UpsertRecord.id = mkIds docs.length := by
  show ((zip3 (mkIds (docs.map Doc.content).length) vectors docs).map _).map _ = _
  rw [List.length_map, List.map_map]
  exact zip3_map_fst (mkIds docs.length) vectors docs
    (by rw [mkIds_length]; exact h) (by rw [mkIds_length])

/-- The function `writesOf` distributes over trace concatenation. -/
theorem writesOf_append (l1 l2 : List Effect) :
    writesOf (l1 ++ l2) = writesOf l1 ++ writesOf l2 := by
  simp [writesOf]

/-- Reconciliation issues no write, whatever the registry contains. -/
theorem writesOf_reconcileEffects (desired : String) (existing : List String) :
    writesOf (reconcileEffects desired existing) = [] := by
  unfold reconcileEffects
  split <;> rfl

/-- The readiness loop issues no write. -/
theorem writesOf_pollEffects (name : String) (m : Nat) :
    writesOf (pollEffects name m) = [] := by
  simp [writesOf, pollEffects, List.filterMap_map]

/-! ## Claims -/

/-- Claim C9: in the dimension-mismatch branch, the dead conditional (line 76)
never evaluates its undefined symbol EMB_ED_DIM — it looks up no names at
all, so no NameError is raised — and it always yields exactly the desired
name with the single suffix -v2 appended, in every environment. -/
theorem c9_dead_conditional_yields_v2 (env : List (String × String)) (requested : String) :
    evalExpr env (mismatchNameExpr requested) = (some (requested ++ "-v2"), []) :=
  evalExpr_mismatchName env requested

/-- Claim C2 (code-bug evidence): against an index that never reports ready,
the while-True readiness loop of lines 99-105 has not exited after any number
of iterations — it polls indefinitely, and its model has no timeout outcome,
contradicting the claimed bounded Timeout failure. -/
theorem c2_never_ready_loop_never_exits (status : Nat → StatusInfo)
    (h : ∀ k, readyFlag (status k) = false) :
    ∀ fuel k, waitReadyFuel (fun k => readyFlag (status k)) k fuel = none := by
  intro fuel
  induction fuel with
  | zero => intro k; rfl
  | succ n ih =>
    intro k
    simp only [waitReadyFuel, h k, if_false]
    exact ih (k + 1)

/-- Witness for C2: a concrete never-ready status stream, 1000 iterations. -/
theorem c2_never_ready_loop_never_exits_witness :
    waitReadyFuel (fun k => readyFlag ((fun _ => ⟨some false⟩ : Nat → StatusInfo) k)) 0 1000
      = none :=
  c2_never_ready_loop_never_exits (fun _ => ⟨some false⟩) (fun _ => rfl) 1000 0

/-- Claim C5: if the desired name exists and the described dimension is known
and different from the requested one, or is unreadable, reconciliation picks
a name distinct from the name of the existing index (the -v2 suffix) and sets the
creation flag; an unreadable dimension is never treated as compatible. -/
theorem c5_mismatch_or_unknown_forces_new_name (desired : String) (embedDim : Nat)
    (existing : List String) (describe : String → Except Unit DescribeInfo)
    (info : DescribeInfo)
    (hmem : desired ∈ existing)
    (hdesc : describe desired = .ok info)
    (hdim : readDim info ≠ some embedDim) :
    reconcile desired embedDim existing describe = .ok ⟨desired ++ "-v2", true⟩
    ∧ desired ++ "-v2" ≠ desired := by
  refine ⟨?_, append_v2_ne desired⟩
  unfold reconcile
  rw [if_pos hmem, hdesc]
  cases hd : readDim info with
  | none => simp [hd]
  | some d =>
    have hne : d ≠ embedDim := by
      intro hdd
      rw [hd, hdd] at hdim
      exact hdim rfl
    simp [hd, hne, evalExpr_mismatchName]

/-- Witness for C5: an existing tester-index of dimension 512 while 1536 is
requested. -/
theorem c5_mismatch_or_unknown_forces_new_name_witness :
    reconcile "tester-index" 1536 ["tester-index"] (fun _ => .ok (.withDim 512))
      = .ok ⟨"tester-index" ++ "-v2", true⟩
    ∧ "tester-index" ++ "-v2" ≠ "tester-index" :=
  c5_mismatch_or_unknown_forces_new_name "tester-index" 1536 ["tester-index"]
    (fun _ => .ok (.withDim 512)) (.withDim 512) (by decide) rfl (by decide)

/-- Counterexample to claim C7: a concrete run with valid credentials where
the describe call of the registry raises; the run aborts with a registry error
instead of proceeding toward safe (re)creation, so describe errors are fatal,
not non-fatal as claimed. -/
theorem c7_describe_error_aborts_run :
    (runPipeline
      ⟨some "sk", some "pk", 1, fun _ => "t", fun _ => "m", 1536, fun _ => [0],
        .ok ["tester-index"], fun _ => .error (), fun _ => ⟨some true⟩,
        fun i => "uuid-" ++ toString i⟩
      3 []).1 = .aborted .registry := by
  rfl

/-- Claim C7 amended: a listing error is non-fatal — the snapshot is treated
as empty and reconciliation proceeds with the desired name and the creation
flag set — but a describe error on an existing name propagates and aborts. -/
theorem c7_listing_nonfatal_describe_fatal (desired : String) (embedDim : Nat)
    (describe : String → Except Unit DescribeInfo) (l : List String)
    (hmem : desired ∈ l) (herr : describe desired = .error ()) :
    reconcilePhase desired embedDim (.error ()) describe = .ok ⟨desired, true⟩
    ∧ reconcilePhase desired embedDim (.ok l) describe = .error () := by
  constructor
  · unfold reconcilePhase reconcile existingOf
    rw [if_neg (List.not_mem_nil desired)]
  · unfold reconcilePhase reconcile existingOf
    rw [if_pos hmem, herr]

/-- Witness for the amended C7 at a concrete registry. -/
theorem c7_listing_nonfatal_describe_fatal_witness :
    reconcilePhase "tester-index" 1536 (.error ()) (fun _ => .error ())
      = .ok ⟨"tester-index", true⟩
    ∧ reconcilePhase "tester-index" 1536 (.ok ["tester-index"]) (fun _ => .error ())
      = .error () :=
  c7_listing_nonfatal_describe_fatal "tester-index" 1536 (fun _ => .error ())
    ["tester-index"] (by decide) rfl

/-- Claim C8: if either credential variable is absent or empty (Python-falsy),
the run aborts with the configuration error and the effect trace is empty —
no document loading, no embedding, no registry call ever happens. -/
theorem c8_missing_credentials_fail_fast (w : World) (fuel : Nat) (st0 : IndexState)
    (h : truthy w.openaiKey = false ∨ truthy w.pineconeKey = false) :
    (runPipeline w fuel st0).1 = .aborted .config
    ∧ (runPipeline w fuel st0).2 = [] := by
  unfold runPipeline
  rcases h with h | h <;> simp [h]

/-- Witness for C8: an empty embedding-service key. -/
theorem c8_missing_credentials_fail_fast_witness :
    (runPipeline
      ⟨some "", some "pk", 1, fun _ => "t", fun _ => "m", 1536, fun _ => [0],
        .ok [], fun _ => .ok .other, fun _ => ⟨some true⟩,
        fun i => "uuid-" ++ toString i⟩
      3 []).1 = .aborted .config
    ∧ (runPipeline
      ⟨some "", some "pk", 1, fun _ => "t", fun _ => "m", 1536, fun _ => [0],
        .ok [], fun _ => .ok .other, fun _ => ⟨some true⟩,
        fun i => "uuid-" ++ toString i⟩
      3 []).2 = [] :=
  c8_missing_credentials_fail_fast _ 3 [] (Or.inl rfl)

/-- Claim C1 (code-bug evidence): with both tester-index and tester-index-v2
registered at dimension 512 while 1536 is requested, reconciliation still
settles on the fixed name tester-index-v2 — a name that itself exists with an
incompatible dimension — instead of advancing to -v3 and re-checking. -/
theorem c1_fixed_v2_still_collides :
    reconcilePhase "tester-index" 1536 (.ok ["tester-index", "tester-index-v2"])
        (fun _ => .ok (.withDim 512))
      = .ok ⟨"tester-index-v2", true⟩
    ∧ "tester-index-v2" ∈ ["tester-index", "tester-index-v2"]
    ∧ readDim (.withDim 512) ≠ some 1536 :=
  ⟨rfl, by decide, by decide⟩

/-- Claim C4 (code-bug evidence): two chunks against one vector — instead of
failing with a precondition error and zero network calls, the zip of lines
119-122 silently truncates to one record and line 127 still issues its one
unconditional upsert network call. -/
theorem c4_mismatch_truncates_and_upserts :
    upsertStep [⟨"t0", "m0"⟩, ⟨"t1", "m1"⟩] [[1]]
      = ([⟨"doc-0", [1], "m0"⟩], 1) :=
  rfl

/-- First run of claim C3: a one-chunk corpus, no pre-existing index, the
index becomes ready immediately; the vector-store constructor generates
uuid-a ids for its own write. -/
def rerunWorld1 : World :=
  ⟨some "sk", some "pk", 1, fun _ => "t0", fun _ => "m0", 4, fun _ => [7],
    .ok [], fun _ => .ok .other, fun _ => ⟨some true⟩,
    fun i => "uuid-a-" ++ toString i⟩

/-- Second run of claim C3: the unchanged corpus against the now-existing
index of matching dimension 4; the vector-store constructor generates
different uuid-b ids. -/
def rerunWorld2 : World :=
  ⟨some "sk", some "pk", 1, fun _ => "t0", fun _ => "m0", 4, fun _ => [7],
    .ok ["tester-index"], fun _ => .ok (.withDim 4), fun _ => ⟨some true⟩,
    fun i => "uuid-b-" ++ toString i⟩

/-- Claim C3 (code-bug evidence): re-running the pipeline against the
unchanged one-chunk corpus and the unchanged index does not reproduce the
record set.  The first run leaves two records (doc-0 plus the uuid-a-0 id of
the vector store); the second run leaves three: doc-0 is overwritten in place, but
the vector-store write adds a fresh uuid-b-0 instead of reusing an id, so the
count grows and the id sets differ. -/
theorem c3_second_run_adds_records :
    finalState (runPipeline rerunWorld1 2 [])
      = some [("doc-0", [7]), ("uuid-a-0", [7])]
    ∧ finalState (runPipeline rerunWorld2 2 [("doc-0", [7]), ("uuid-a-0", [7])])
      = some [("doc-0", [7]), ("uuid-a-0", [7]), ("uuid-b-0", [7])] :=
  ⟨rfl, rfl⟩

/-- A create call never hides in the reconciliation effects. -/
theorem createIndex_not_in_reconcileEffects (name desired : String) (d : Nat)
    (existing : List String) :
    Effect.createIndex name d ∉ reconcileEffects desired existing := by
  unfold reconcileEffects
  split <;> simp

/-- A create call never hides in the polling effects. -/
theorem createIndex_not_in_pollEffects (name nm : String) (d m : Nat) :
    Effect.createIndex name d ∉ pollEffects nm m := by
  simp [pollEffects]

/-- Claim C6: an existing index whose readable dimension equals the requested
one is reused — reconciliation returns the desired name with the creation
flag off — and the effect trace of the run contains no create-index call at all. -/
theorem c6_equal_dim_reuses_without_create (w : World) (fuel : Nat) (st0 : IndexState)
    (info : DescribeInfo)
    (hmem : "tester-index" ∈ existingOf w.listResult)
    (hdesc : w.describeResult "tester-index" = .ok info)
    (hdim : readDim info = some w.embedDim) :
    reconcile "tester-index" w.embedDim (existingOf w.listResult) w.describeResult
      = .ok ⟨"tester-index", false⟩
    ∧ ∀ name d, Effect.createIndex name d ∉ (runPipeline w fuel st0).2 := by
  have hrec : reconcile "tester-index" w.embedDim (existingOf w.listResult) w.describeResult
      = .ok ⟨"tester-index", false⟩ := by
    unfold reconcile
    rw [if_pos hmem, hdesc]
    simp [hdim]
  refine ⟨hrec, ?_⟩
  intro name d
  unfold runPipeline
  split
  · simp
  · simp only [hrec]
    cases hw : waitReadyFuel (fun k => readyFlag (w.pollStatus k)) 0 fuel with
    | none =>
      simp [hw, List.mem_append, createIndex_not_in_reconcileEffects,
        createIndex_not_in_pollEffects]
    | some p =>
      simp [hw, List.mem_append, createIndex_not_in_reconcileEffects,
        createIndex_not_in_pollEffects]

/-- The registry of the C6 witness: tester-index exists at dimension 4 and
the sample embedding also has dimension 4. -/
def reuseWorld : World :=
  ⟨some "sk", some "pk", 1, fun _ => "t0", fun _ => "m0", 4, fun _ => [7],
    .ok ["tester-index"], fun _ => .ok (.withDim 4), fun _ => ⟨some true⟩,
    fun i => "uuid-a-" ++ toString i⟩

/-- Witness for C6 at the concrete `reuseWorld`. -/
theorem c6_equal_dim_reuses_without_create_witness :
    reconcile "tester-index" reuseWorld.embedDim (existingOf reuseWorld.listResult)
        reuseWorld.describeResult
      = .ok ⟨"tester-index", false⟩
    ∧ ∀ name d, Effect.createIndex name d ∉ (runPipeline reuseWorld 2 []).2 :=
  c6_equal_dim_reuses_without_create reuseWorld 2 [] (.withDim 4) (by decide) rfl rfl

/-- The creation step writes nothing. -/
theorem writesOf_createEffect (b : Bool) (nm : String) (d : Nat) :
    writesOf (if b then [Effect.createIndex nm d] else []) = [] := by
  cases b <;> rfl

/-- Reconciliation performs no batch-embedding call. -/
theorem embedCalls_reconcileEffects (desired : String) (existing : List String) :
    embedBatchCalls (reconcileEffects desired existing) = 0 := by
  unfold reconcileEffects
  split <;> rfl

/-- The readiness loop performs no batch-embedding call. -/
theorem embedCalls_pollEffects (nm : String) (m : Nat) :
    embedBatchCalls (pollEffects nm m) = 0 := by
  simp [embedBatchCalls, pollEffects, List.countP_map]

/-- The creation step performs no batch-embedding call. -/
theorem embedCalls_createEffect (b : Bool) (nm : String) (d : Nat) :
    embedBatchCalls (if b then [Effect.createIndex nm d] else []) = 0 := by
  cases b <;> rfl

/-- The function `embedBatchCalls` distributes over trace concatenation. -/
theorem embedCalls_append (l1 l2 : List Effect) :
    embedBatchCalls (l1 ++ l2) = embedBatchCalls l1 + embedBatchCalls l2 := by
  simp [embedBatchCalls, List.countP_append]

/-- Claim C10: a completed run performs exactly two write passes over the
corpus: first the direct upsert under the deterministic ids doc-0..doc-(n-1),
then the vector-store write under the library-generated ids; the documents
are batch-embedded once per pass (twice in total), and — the generated ids
being fresh uuids — the second pass reuses none of the doc-i ids. -/
theorem c10_two_write_passes (w : World) (fuel : Nat) (st0 : IndexState)
    (r : ReconcileResult) (p : Nat)
    (hkey1 : truthy w.openaiKey = true) (hkey2 : truthy w.pineconeKey = true)
    (hrec : reconcile "tester-index" w.embedDim (existingOf w.listResult) w.describeResult
      = .ok r)
    (hready : waitReadyFuel (fun k => readyFlag (w.pollStatus k)) 0 fuel = some p)
    (hfresh : ∀ i, i < w.numChunks → w.freshId i ∉ mkIds w.numChunks) :
    writesOf (runPipeline w fuel st0).2
      = [mkIds w.numChunks, (List.range w.numChunks).map w.freshId]
    ∧ embedBatchCalls (runPipeline w fuel st0).2 = 2
    ∧ ∀ id ∈ (List.range w.numChunks).map w.freshId, id ∉ mkIds w.numChunks := by
  have hids :
      ((upsertStep
          ((List.range w.numChunks).map (fun i => Doc.mk (w.chunkText i) (w.chunkMeta i)))
          ((List.range w.numChunks).map w.embedVec)).1).map UpsertRecord.id
        = mkIds w.numChunks := by
    rw [upsertStep_ids _ _ (by simp)]
    simp
  have htrace : (runPipeline w fuel st0).2
      = [Effect.loadDocs, Effect.embedSample, Effect.listIndexes]
        ++ reconcileEffects "tester-index" (existingOf w.listResult)
        ++ (if r.mustCreate then [Effect.createIndex r.targetName w.embedDim] else [])
        ++ pollEffects r.targetName (p + 1)
        ++ [Effect.embedDocuments, Effect.upsertCall (mkIds w.numChunks)]
        ++ [Effect.embedDocuments, Effect.upsertCall ((List.range w.numChunks).map w.freshId)]
        ++ [Effect.searchQuery] := by
    unfold runPipeline
    rw [if_neg (by simp [hkey1, hkey2])]
    simp only [hrec, hready, hids]
  refine ⟨?_, ?_, ?_⟩
  · rw [htrace]
    simp only [writesOf_append, writesOf_reconcileEffects, writesOf_createEffect,
      writesOf_pollEffects]
    rfl
  · rw [htrace]
    simp only [embedCalls_append, embedCalls_reconcileEffects, embedCalls_createEffect,
      embedCalls_pollEffects]
    rfl
  · intro id hid
    rw [List.mem_map] at hid
    obtain ⟨i, hi, rfl⟩ := hid
    exact hfresh i (List.mem_range.mp hi)

/-- The world of the C10 witness: one chunk, no pre-existing index, ready at
the first poll, vector-store ids drawn from a uuid-c pool. -/
def twoPassWorld : World :=
  ⟨some "sk", some "pk", 1, fun _ => "t0", fun _ => "m0", 4, fun _ => [7],
    .ok [], fun _ => .ok .other, fun _ => ⟨some true⟩,
    fun i => "uuid-c-" ++ toString i⟩

/-- Witness for C10 at the concrete `twoPassWorld`. -/
theorem c10_two_write_passes_witness :
    writesOf (runPipeline twoPassWorld 1 []).2
      = [mkIds twoPassWorld.numChunks,
         (List.range twoPassWorld.numChunks).map twoPassWorld.freshId]
    ∧ embedBatchCalls (runPipeline twoPassWorld 1 []).2 = 2
    ∧ ∀ id ∈ (List.range twoPassWorld.numChunks).map twoPassWorld.freshId,
        id ∉ mkIds twoPassWorld.numChunks :=
  c10_two_write_passes twoPassWorld 1 [] ⟨"tester-index", true⟩ 0
    rfl rfl rfl rfl (by decide)

end App
